import Mathlib

/-
  Verification development for the pokefier autocatcher (src/main.py).

  Shallow embedding conventions:
  - Discord snowflake ids are Python ints, embedded as Int.
  - Confidence scores are Python floats, embedded as Rat; every comparison the
    program performs on them (strictly-greater against the literal 60.0) is
    exact at the rational values appearing in the claims.
  - The verification flag `bot.verified` is embedded as Option Bool: none means
    the attribute has never been assigned (reading it raises AttributeError),
    some b means the attribute holds the boolean b.
  - External collaborators (the classifier pokefier.predict_pokemon_from_url,
    random.choice, the captcha solver) are embedded as oracle parameters
    (the predicted candidate list, a pick index) and as emitted effects.
  - Python exceptions surface as an Option PyExn in the handler outcome,
    together with the effects emitted before the raise.
-/

namespace Pokefier

/-- Embeds the check `needle in hay` on Python strings restricted to the case
`startsAt hay needle`: true when needle is an initial segment of hay. -/
def startsAt : List Char → List Char → Bool
  | _, [] => true
  | [], _ :: _ => false
  | h :: hs, n :: ns => h == n && startsAt hs ns

/-- Embeds the Python substring test `needle in hay` (str.__contains__). -/
def containsSub (needle : List Char) : List Char → Bool
  | [] => startsAt [] needle
  | h :: t => startsAt (h :: t) needle || containsSub needle t

/-- ASCII lowering of a string, embedding Python str.lower as used by the
program (all case-carrying characters the program compares are ASCII). -/
def pyLower (s : String) : String :=
  String.mk (s.toList.map Char.toLower)

/-- Strip leading and trailing whitespace from a character list. -/
def trimChars (cs : List Char) : List Char :=
  ((cs.dropWhile Char.isWhitespace).reverse.dropWhile Char.isWhitespace).reverse

/-- Fold a digit list into a natural number. -/
def digitsToNat (ds : List Char) : Nat :=
  ds.foldl (fun n c => 10 * n + (c.toNat - '0'.toNat)) 0

/-- Embeds Python int(str): optional surrounding whitespace, optional sign,
then decimal digits; none models the ValueError raised otherwise. (Python
additionally accepts underscores between digits and non-ASCII digits; those
forms never occur in the claims and are not modelled.) -/
def pyInt (s : String) : Option Int :=
  match trimChars s.toList with
  | [] => none
  | '+' :: ds =>
    if ds.isEmpty then none
    else if ds.all Char.isDigit then some (digitsToNat ds : Int) else none
  | '-' :: ds =>
    if ds.isEmpty then none
    else if ds.all Char.isDigit then some (-(digitsToNat ds : Int)) else none
  | ds =>
    if ds.all Char.isDigit then some (digitsToNat ds : Int) else none

/-- src/main.py line 16: POKETWO_ID = 716390085896962058. -/
def POKETWO_ID : Int := 716390085896962058

/-- src/main.py line 17: the module-level WHITELISTED_CHANNELS list. -/
def WHITELISTED_CHANNELS : List Int := []

/-- src/main.py line 18: the module-level LANGUAGES list. -/
def LANGUAGES : List String := ["english"]

/-- A Discord embed as the program reads it: title and image URL. -/
structure Embed where
  title : String
  imageUrl : String
deriving DecidableEq

/-- An incoming Discord message as the program reads it. -/
structure Message where
  authorId : Int
  channelId : Int
  content : String
  embeds : List Embed
deriving DecidableEq

/-- The embed-title part of is_spawn_message: src/main.py lines 35-36 check
`len(message.embeds) > 0` and then that the literal phrase occurs in
`message.embeds[0].title.lower()`; the length guard and the [0] index are
fused into one match. -/
def embedTitleMatches (embeds : List Embed) : Bool :=
  match embeds with
  | [] => false
  | e :: _ => containsSub "wild pokémon has appeared".toList (e.title.toList.map Char.toLower)

/-- Embeds is_spawn_message (src/main.py lines 22-36). -/
def is_spawn_message (msg : Message) (whitelisted_channels : List Int) : Bool :=
  msg.authorId == POKETWO_ID &&
  whitelisted_channels.contains msg.channelId &&
  embedTitleMatches msg.embeds

/-- The captcha link the program formats with an f-string
(src/main.py line 52). -/
def captchaLink (id : Int) : String :=
  "https://verify.poketwo.net/captcha/" ++ toString id

/-- Embeds is_captcha_message (src/main.py lines 38-52). -/
def is_captcha_message (msg : Message) (whitelisted_channels : List Int) (id : Int) : Bool :=
  msg.authorId == POKETWO_ID &&
  whitelisted_channels.contains msg.channelId &&
  containsSub (captchaLink id).toList msg.content.toList

/-- One alternate-name record of data.json as read by
get_alternate_pokemon_name. -/
structure AltName where
  language : String
  name : String
deriving DecidableEq

/-- One pokemon record of data.json as read by get_alternate_pokemon_name. -/
structure PokemonEntry where
  name : String
  altnames : List AltName
deriving DecidableEq

/-- Embeds Autocatcher.get_alternate_pokemon_name (src/main.py lines 81-106).
random.choice over the filtered alternate names is embedded by the oracle
index pick, reduced modulo the number of matches. -/
def get_alternate_pokemon_name (pokemon_data : List PokemonEntry) (name : String)
    (languages : List String) (pick : Nat) : String :=
  match pokemon_data.find? (fun p => pyLower p.name == pyLower name) with
  | none => pyLower name
  | some p =>
    let alternate_names := p.altnames.filter (fun a => languages.contains (pyLower a.language))
    match alternate_names with
    | [] => pyLower name
    | a :: rest => pyLower ((a :: rest).getD (pick % (a :: rest).length) a).name

/-- The comparison step of Python max(xs, key=lambda x: x[1]): the running
maximum is replaced only when the new key is strictly greater, so the first
maximal element wins ties. -/
def pickMax (acc y : String × Rat) : String × Rat :=
  if y.2 > acc.2 then y else acc

/-- Embeds `max(predicted_pokemons, key=lambda x: x[1])` (src/main.py
line 339); none models the ValueError raised on an empty sequence. -/
def maxBySnd : List (String × Rat) → Option (String × Rat)
  | [] => none
  | x :: xs => some (xs.foldl pickMax x)

/-- The observable external actions of on_message: the classifier call
(`pokefier.predict_pokemon_from_url`), the outbound catch message
(`message.channel.send`), and the captcha solve (`solve_captcha` calling
`verify`). -/
inductive Effect
  | classifyCall (url : String)
  | send (channelId : Int) (content : String)
  | solve
deriving DecidableEq

/-- Number of solve invocations in an effect list. -/
def countSolve : List Effect → Nat
  | [] => 0
  | Effect.solve :: rest => countSolve rest + 1
  | _ :: rest => countSolve rest

/-- The Python exceptions the handler can raise: reading the never-assigned
`bot.verified` attribute, and max() over an empty sequence. -/
inductive PyExn
  | attributeError
  | valueError
deriving DecidableEq

/-- Per-session state of one Autocatcher bot (single-session view: the
whitelist and language lists are held by value; the cross-session aliasing of
the module-level lists is modelled separately below). -/
structure BotState where
  selfId : Int
  whitelisted_channels : List Int
  languages : List String
  pokemon_data : List PokemonEntry
  verified : Option Bool
deriving DecidableEq

/-- Embeds Autocatcher.__init__ (src/main.py lines 55-59): the whitelist and
language lists start from the module-level globals, pokemon data is loaded
from data.json (here a parameter), and — decisively — `self.verified` is
never assigned, embedded as none. -/
def initBot (selfId : Int) (pokemon_data : List PokemonEntry) : BotState :=
  { selfId := selfId
    whitelisted_channels := WHITELISTED_CHANNELS
    languages := LANGUAGES
    pokemon_data := pokemon_data
    verified := none }

/-- Outcome of one on_message run: the state when the handler returns or
raises, the effects emitted up to that point, and the exception if one was
raised. -/
structure HandleOutcome where
  state : BotState
  effects : List Effect
  exn : Option PyExn
deriving DecidableEq

/-- The captcha branch of on_message (src/main.py lines 351-353): on a captcha
message set `bot.verified = False` and call solve_captcha once. -/
def captchaPhase (s : BotState) (msg : Message) : BotState × List Effect :=
  if is_captcha_message msg s.whitelisted_channels s.selfId then
    ({ s with verified := some false }, [Effect.solve])
  else (s, [])

/-- First embed's image URL (src/main.py line 333); the empty-list arm is
unreachable under is_spawn_message, which requires an embed. -/
def firstImageUrl : List Embed → String
  | [] => ""
  | e :: _ => e.imageUrl

/-- Embeds the on_message event handler (src/main.py lines 321-353) for a
non-command message. The classifier result and the random pick are oracle
parameters. An exception in the spawn branch aborts the handler before the
captcha branch, as in Python. process_commands (line 329) dispatches the
administrative commands, embedded separately below. -/
def on_message (s : BotState) (msg : Message) (predicted : List (String × Rat))
    (pick : Nat) : HandleOutcome :=
  if is_spawn_message msg s.whitelisted_channels then
    match s.verified with
    | none => { state := s, effects := [], exn := some PyExn.attributeError }
    | some v =>
      if v then
        let url := firstImageUrl msg.embeds
        match maxBySnd predicted with
        | none =>
          { state := s, effects := [Effect.classifyCall url], exn := some PyExn.valueError }
        | some best =>
          let spawnEffects :=
            if best.2 > (60 : Rat) then
              [Effect.classifyCall url,
               Effect.send msg.channelId
                 ("<@716390085896962058> c " ++
                   get_alternate_pokemon_name s.pokemon_data best.1 s.languages pick)]
            else [Effect.classifyCall url]
          let sc := captchaPhase s msg
          { state := sc.1, effects := spawnEffects ++ sc.2, exn := none }
      else
        let sc := captchaPhase s msg
        { state := sc.1, effects := sc.2, exn := none }
  else
    let sc := captchaPhase s msg
    { state := sc.1, effects := sc.2, exn := none }

/-- The per-token feedback of the administrative commands; each constructor
stands for one reply or message line of src/main.py with its payload:
invalidChannel and invalidLanguage are the ctx.reply error lines, the others
are the lines appended to the batched code-block message. -/
inductive AdminLine
  | invalidChannel (tok : String)
  | alreadyWhitelisted (id : Int)
  | whitelisted (id : Int)
  | removedChannel (id : Int)
  | notWhitelisted (id : Int)
  | invalidLanguage (tok : String)
  | alreadyAddedLang (tok : String)
  | addedLang (tok : String)
  | removedLang (tok : String)
  | notAddedLang (tok : String)
deriving DecidableEq

/-- src/main.py line 218 and line 248: the recognized languages. -/
def valid_languages : List String := ["english", "french", "german", "japanese"]

/-- Embeds the token loop of the channeladd command (src/main.py lines
155-166): int() failure reports the token and continues; a known id is
reported as already whitelisted; otherwise the id is appended. -/
def channeladdTokens (wl : List Int) : List String → List Int × List AdminLine
  | [] => (wl, [])
  | t :: ts =>
    match pyInt t with
    | none =>
      let r := channeladdTokens wl ts
      (r.1, AdminLine.invalidChannel t :: r.2)
    | some id =>
      if id ∈ wl then
        let r := channeladdTokens wl ts
        (r.1, AdminLine.alreadyWhitelisted id :: r.2)
      else
        let r := channeladdTokens (wl ++ [id]) ts
        (r.1, AdminLine.whitelisted id :: r.2)

/-- Embeds the token loop of the channelremove command (src/main.py lines
186-199): a present id rebinds the whitelist to a fresh filtered list. -/
def channelremoveTokens (wl : List Int) : List String → List Int × List AdminLine
  | [] => (wl, [])
  | t :: ts =>
    match pyInt t with
    | none =>
      let r := channelremoveTokens wl ts
      (r.1, AdminLine.invalidChannel t :: r.2)
    | some id =>
      if id ∈ wl then
        let r := channelremoveTokens (wl.filter (fun x => x != id)) ts
        (r.1, AdminLine.removedChannel id :: r.2)
      else
        let r := channelremoveTokens wl ts
        (r.1, AdminLine.notWhitelisted id :: r.2)

/-- Embeds the token loop of the languageadd command (src/main.py lines
220-229): unknown languages are reported and skipped; a new language is
appended in lower case. -/
def languageaddTokens (langs : List String) : List String → List String × List AdminLine
  | [] => (langs, [])
  | t :: ts =>
    if pyLower t ∈ valid_languages then
      if pyLower t ∈ langs then
        let r := languageaddTokens langs ts
        (r.1, AdminLine.alreadyAddedLang t :: r.2)
      else
        let r := languageaddTokens (langs ++ [pyLower t]) ts
        (r.1, AdminLine.addedLang t :: r.2)
    else
      let r := languageaddTokens langs ts
      (r.1, AdminLine.invalidLanguage t :: r.2)

/-- Embeds the token loop of the languageremove command (src/main.py lines
250-261). Note the asymmetry taken verbatim from the source: membership is
tested on `language.lower()` but the filter keeps every element different
from the original-case `language`. -/
def languageremoveTokens (langs : List String) : List String → List String × List AdminLine
  | [] => (langs, [])
  | t :: ts =>
    if pyLower t ∈ valid_languages then
      if pyLower t ∈ langs then
        let r := languageremoveTokens (langs.filter (fun l => l != t)) ts
        (r.1, AdminLine.removedLang t :: r.2)
      else
        let r := languageremoveTokens langs ts
        (r.1, AdminLine.notAddedLang t :: r.2)
    else
      let r := languageremoveTokens langs ts
      (r.1, AdminLine.invalidLanguage t :: r.2)

/-- The channeladd command acting on a whole bot state. -/
def channeladdBot (s : BotState) (toks : List String) : BotState × List AdminLine :=
  let r := channeladdTokens s.whitelisted_channels toks
  ({ s with whitelisted_channels := r.1 }, r.2)

/-
  Two-session process model, for the cross-session isolation claim.

  In src/main.py every Autocatcher.__init__ runs
  `self.whitelisted_channels = WHITELISTED_CHANNELS` and
  `self.languages = LANGUAGES`: all sessions initially alias the same two
  module-level list objects. `append` (channeladd, languageadd) mutates the
  aliased object in place; the remove commands rebind the attribute to a
  fresh list built by a comprehension. A Cell records whether a session's
  attribute still points at the module-level object (aliased) or at a
  private list (owned); this captures Python object identity exactly for
  this program, since the module-level lists are the only objects ever
  shared and a rebind always produces a fresh unshared list.
-/

/-- A session attribute that either aliases the module-level list or owns a
private one. -/
structure Cell (α : Type) where
  aliased : Bool
  owned : List α
deriving DecidableEq

/-- The list a session sees through a cell, given the module-level list g. -/
def Cell.view (g : List α) (c : Cell α) : List α :=
  if c.aliased then g else c.owned

/-- Process state for two concurrently running sessions A and B: the two
module-level lists and each session's two attribute cells. -/
structure ProcState where
  gWC : List Int
  gLang : List String
  wcA : Cell Int
  wcB : Cell Int
  langA : Cell String
  langB : Cell String
deriving DecidableEq

/-- Fresh process: empty module-level whitelist, module-level language list
["english"], both sessions aliasing both (Autocatcher.__init__). -/
def initProc : ProcState :=
  { gWC := [], gLang := ["english"]
    wcA := ⟨true, []⟩, wcB := ⟨true, []⟩
    langA := ⟨true, []⟩, langB := ⟨true, []⟩ }

/-- Whitelist cell of a session (true selects A). -/
def wcCell (p : ProcState) (who : Bool) : Cell Int :=
  if who then p.wcA else p.wcB

/-- Replace a session's whitelist cell. -/
def setWcCell (p : ProcState) (who : Bool) (c : Cell Int) : ProcState :=
  if who then { p with wcA := c } else { p with wcB := c }

/-- Language cell of a session. -/
def langCell (p : ProcState) (who : Bool) : Cell String :=
  if who then p.langA else p.langB

/-- Replace a session's language cell. -/
def setLangCell (p : ProcState) (who : Bool) (c : Cell String) : ProcState :=
  if who then { p with langA := c } else { p with langB := c }

/-- The whitelist a session currently sees. -/
def wcView (p : ProcState) (who : Bool) : List Int :=
  Cell.view p.gWC (wcCell p who)

/-- The language list a session currently sees. -/
def langView (p : ProcState) (who : Bool) : List String :=
  Cell.view p.gLang (langCell p who)

/-- Python list.append on a session's whitelist attribute: mutates the
module-level object when aliased, the private list otherwise. -/
def wcAppend (p : ProcState) (who : Bool) (id : Int) : ProcState :=
  let c := wcCell p who
  if c.aliased then { p with gWC := p.gWC ++ [id] }
  else setWcCell p who { c with owned := c.owned ++ [id] }

/-- Attribute rebind `bot.whitelisted_channels = l`: the session now owns a
fresh private list; the module-level object is untouched. -/
def wcRebind (p : ProcState) (who : Bool) (l : List Int) : ProcState :=
  setWcCell p who ⟨false, l⟩

/-- Python list.append on a session's languages attribute. -/
def langAppend (p : ProcState) (who : Bool) (lang : String) : ProcState :=
  let c := langCell p who
  if c.aliased then { p with gLang := p.gLang ++ [lang] }
  else setLangCell p who { c with owned := c.owned ++ [lang] }

/-- Attribute rebind `bot.languages = l`. -/
def langRebind (p : ProcState) (who : Bool) (l : List String) : ProcState :=
  setLangCell p who ⟨false, l⟩

/-- channeladd run by session who in the two-session process model
(src/main.py lines 155-166). -/
def procChanneladd (who : Bool) : ProcState → List String → ProcState × List AdminLine
  | p, [] => (p, [])
  | p, t :: ts =>
    match pyInt t with
    | none =>
      let r := procChanneladd who p ts
      (r.1, AdminLine.invalidChannel t :: r.2)
    | some id =>
      if id ∈ wcView p who then
        let r := procChanneladd who p ts
        (r.1, AdminLine.alreadyWhitelisted id :: r.2)
      else
        let r := procChanneladd who (wcAppend p who id) ts
        (r.1, AdminLine.whitelisted id :: r.2)

/-- channelremove run by session who in the two-session process model
(src/main.py lines 186-199). -/
def procChannelremove (who : Bool) : ProcState → List String → ProcState × List AdminLine
  | p, [] => (p, [])
  | p, t :: ts =>
    match pyInt t with
    | none =>
      let r := procChannelremove who p ts
      (r.1, AdminLine.invalidChannel t :: r.2)
    | some id =>
      if id ∈ wcView p who then
        let r := procChannelremove who (wcRebind p who ((wcView p who).filter (fun x => x != id))) ts
        (r.1, AdminLine.removedChannel id :: r.2)
      else
        let r := procChannelremove who p ts
        (r.1, AdminLine.notWhitelisted id :: r.2)

/-- languageadd run by session who in the two-session process model
(src/main.py lines 220-229). -/
def procLanguageadd (who : Bool) : ProcState → List String → ProcState × List AdminLine
  | p, [] => (p, [])
  | p, t :: ts =>
    if pyLower t ∈ valid_languages then
      if pyLower t ∈ langView p who then
        let r := procLanguageadd who p ts
        (r.1, AdminLine.alreadyAddedLang t :: r.2)
      else
        let r := procLanguageadd who (langAppend p who (pyLower t)) ts
        (r.1, AdminLine.addedLang t :: r.2)
    else
      let r := procLanguageadd who p ts
      (r.1, AdminLine.invalidLanguage t :: r.2)

/-- languageremove run by session who in the two-session process model
(src/main.py lines 250-261). -/
def procLanguageremove (who : Bool) : ProcState → List String → ProcState × List AdminLine
  | p, [] => (p, [])
  | p, t :: ts =>
    if pyLower t ∈ valid_languages then
      if pyLower t ∈ langView p who then
        let r := procLanguageremove who (langRebind p who ((langView p who).filter (fun l => l != t))) ts
        (r.1, AdminLine.removedLang t :: r.2)
      else
        let r := procLanguageremove who p ts
        (r.1, AdminLine.notAddedLang t :: r.2)
    else
      let r := procLanguageremove who p ts
      (r.1, AdminLine.invalidLanguage t :: r.2)

/-
  Concrete fixtures used by the closed theorems and witnesses.
-/

/-- A message qualifying as a spawn event for whitelist [123]. -/
def mSpawn : Message :=
  { authorId := POKETWO_ID, channelId := 123, content := "",
    embeds := [{ title := "a wild pokémon has appeared!", imageUrl := "https://img" }] }

/-- A message qualifying simultaneously as a spawn event and as a captcha
event for whitelist [123] and account id 42: the spawn check reads the embed
title, the captcha check reads the content, and this message has both. -/
def mBoth : Message :=
  { authorId := POKETWO_ID, channelId := 123,
    content := "please verify: https://verify.poketwo.net/captcha/42",
    embeds := [{ title := "a wild pokémon has appeared!", imageUrl := "https://img" }] }

/-- A message qualifying as a captcha event only (no embeds). -/
def mCaptchaOnly : Message :=
  { authorId := POKETWO_ID, channelId := 123,
    content := "https://verify.poketwo.net/captcha/42", embeds := [] }

/-- A session whose verified flag has been assigned True. -/
def sVerified : BotState :=
  { selfId := 42, whitelisted_channels := [123], languages := ["english"],
    pokemon_data := [], verified := some true }

/-- A session whose verified flag has been assigned False (PENDING). -/
def sPending : BotState :=
  { selfId := 42, whitelisted_channels := [123], languages := ["english"],
    pokemon_data := [], verified := some false }

/-- A fresh session (Autocatcher.__init__) whose administrator then
whitelisted channel 123; nothing has assigned the verified flag. -/
def sFresh : BotState := (channeladdBot (initBot 42 []) ["123"]).1

/-
  Shared helper lemmas.
-/

/-- The captcha branch emits either no effect or exactly the solve effect. -/
theorem captchaPhase_effects (s : BotState) (msg : Message) :
    (captchaPhase s msg).2 = [] ∨ (captchaPhase s msg).2 = [Effect.solve] := by
  unfold captchaPhase
  split
  · exact Or.inr rfl
  · exact Or.inl rfl

/-- countSolve distributes over append. -/
theorem countSolve_append (l1 l2 : List Effect) :
    countSolve (l1 ++ l2) = countSolve l1 + countSolve l2 := by
  induction l1 with
  | nil => simp [countSolve]
  | cons h t ih =>
    cases h with
    | classifyCall u => simp [countSolve, ih]
    | send c m => simp [countSolve, ih]
    | solve =>
      simp [countSolve, ih]
      omega

/-
  Claim C1.
-/

/-- Claim C1 (code bug witness): the spec says a fresh session starts
VERIFIED and acts on a qualifying spawn event, but Autocatcher.__init__
never assigns self.verified, so on the first qualifying spawn event the
handler reads the unset attribute and raises AttributeError: the spawn
branch does not run and nothing is dispatched, even though the classifier
would have returned a 99-confidence candidate. -/
theorem fresh_session_spawn_raises_attribute_error :
    sFresh.verified = none ∧
    is_spawn_message mSpawn sFresh.whitelisted_channels = true ∧
    on_message sFresh mSpawn [("pikachu", 99)] 0 =
      { state := sFresh, effects := [], exn := some PyExn.attributeError } := by
  decide

/-
  Claim C3.
-/

/-- Claim C3 counterexample: the spawn predicate and the captcha predicate
are not mutually exclusive — this single message from the platform bot in a
whitelisted channel carries the spawn phrase in its embed title and the
captcha link in its content, and both predicates hold. -/
theorem spawn_and_captcha_both_hold :
    is_spawn_message mBoth [123] = true ∧ is_captcha_message mBoth [123] 42 = true := by
  decide

/-- Claim C3 (amended): the two predicates test independent fields (embed
title for spawn, message content for captcha), so they are mutually
exclusive only for messages that do not carry both content patterns at once:
whenever the first embed's title lacks the spawn phrase or the content lacks
the captcha link, at most one of the predicates holds. -/
theorem spawn_captcha_exclusive_unless_both_patterns (msg : Message) (wl : List Int) (id : Int)
    (h : embedTitleMatches msg.embeds = false ∨
         containsSub (captchaLink id).toList msg.content.toList = false) :
    ¬(is_spawn_message msg wl = true ∧ is_captcha_message msg wl id = true) := by
  rintro ⟨hs, hc⟩
  rcases h with h | h
  · simp [is_spawn_message, h] at hs
  · simp only [String.toList] at h
    simp [is_captcha_message, String.toList, h] at hc

/-- Claim C3 amended witness: a message without embeds fails the title
pattern, so the exclusivity theorem applies to it. -/
theorem spawn_captcha_exclusive_witness :
    embedTitleMatches (Message.embeds ⟨POKETWO_ID, 5, "x", []⟩) = false ∧
    ¬(is_spawn_message ⟨POKETWO_ID, 5, "x", []⟩ [5] = true ∧
      is_captcha_message ⟨POKETWO_ID, 5, "x", []⟩ [5] 1 = true) :=
  ⟨rfl, spawn_captcha_exclusive_unless_both_patterns ⟨POKETWO_ID, 5, "x", []⟩ [5] 1 (Or.inl rfl)⟩

/-
  Claim C4.
-/

/-- Claim C4: while the session is PENDING (verified assigned False), a
qualifying spawn event is dropped — the handler performs no classifier call
and no dispatch, and raises no exception (nothing is queued or retried: the
handler returns normally having emitted no pipeline effect). -/
theorem pending_spawn_no_pipeline (s : BotState) (msg : Message)
    (predicted : List (String × Rat)) (pick : Nat)
    (hv : s.verified = some false)
    (hs : is_spawn_message msg s.whitelisted_channels = true) :
    (∀ u, Effect.classifyCall u ∉ (on_message s msg predicted pick).effects) ∧
    (∀ c t, Effect.send c t ∉ (on_message s msg predicted pick).effects) ∧
    (on_message s msg predicted pick).exn = none := by
  rcases captchaPhase_effects s msg with h | h <;>
    simp [on_message, hs, hv, h]

/-- Claim C4 witness: the PENDING session drops a concrete qualifying spawn
event without a classifier call. -/
theorem pending_spawn_no_pipeline_witness :
    sPending.verified = some false ∧
    is_spawn_message mSpawn sPending.whitelisted_channels = true ∧
    (∀ u, Effect.classifyCall u ∉ (on_message sPending mSpawn [("pikachu", 99)] 0).effects) :=
  ⟨by decide, by decide,
   (pending_spawn_no_pipeline sPending mSpawn [("pikachu", 99)] 0 (by decide) (by decide)).1⟩

/-
  Claim C9.
-/

/-- Claim C9: in the VERIFIED state, a qualifying spawn event whose
classification result is the empty sequence makes the handler raise (max of
an empty sequence, a Python ValueError) after the classifier call, with no
dispatch and no silent abort. -/
theorem empty_classification_raises (s : BotState) (msg : Message) (pick : Nat)
    (hv : s.verified = some true)
    (hs : is_spawn_message msg s.whitelisted_channels = true) :
    on_message s msg [] pick =
      { state := s, effects := [Effect.classifyCall (firstImageUrl msg.embeds)],
        exn := some PyExn.valueError } := by
  simp [on_message, hs, hv, maxBySnd]

/-- Claim C9 witness: a concrete qualifying spawn event with an empty
classification result raises ValueError. -/
theorem empty_classification_raises_witness :
    sVerified.verified = some true ∧
    is_spawn_message mSpawn sVerified.whitelisted_channels = true ∧
    on_message sVerified mSpawn [] 0 =
      { state := sVerified, effects := [Effect.classifyCall "https://img"],
        exn := some PyExn.valueError } :=
  ⟨by decide, by decide, empty_classification_raises sVerified mSpawn 0 (by decide) (by decide)⟩

/-
  Claim C5.
-/

/-- Claim C5 counterexample: a message classified as a Challenge event in the
VERIFIED state for which the state is not set to PENDING and solve is never
invoked — the message also qualifies as a Spawn event, the classifier returns
the empty sequence, and the resulting exception aborts the handler before the
captcha branch runs. -/
theorem challenge_without_solve :
    is_captcha_message mBoth sVerified.whitelisted_channels sVerified.selfId = true ∧
    countSolve (on_message sVerified mBoth [] 0).effects = 0 ∧
    (on_message sVerified mBoth [] 0).state.verified = some true := by
  decide

/-- Claim C5 (amended): for every message classified as a Challenge event, in
every run of the handler that completes without raising an exception —
in particular whenever the message is not also a spawn event whose handling
raises — the state is set to PENDING (verified False) and solve is invoked
exactly once for that message. -/
theorem challenge_sets_pending_and_solves_once (s : BotState) (msg : Message)
    (predicted : List (String × Rat)) (pick : Nat)
    (hc : is_captcha_message msg s.whitelisted_channels s.selfId = true)
    (hok : (on_message s msg predicted pick).exn = none) :
    (on_message s msg predicted pick).state.verified = some false ∧
    countSolve (on_message s msg predicted pick).effects = 1 := by
  by_cases hs : is_spawn_message msg s.whitelisted_channels = true
  · cases hv : s.verified with
    | none => simp [on_message, hs, hv] at hok
    | some v =>
      cases v with
      | false => simp [on_message, hs, hv, captchaPhase, hc, countSolve]
      | true =>
        cases hm : maxBySnd predicted with
        | none => simp [on_message, hs, hv, hm] at hok
        | some best =>
          by_cases h60 : best.2 > (60 : Rat) <;>
            simp [on_message, hs, hv, hm, h60, captchaPhase, hc, countSolve_append, countSolve]
  · simp [on_message, hs, captchaPhase, hc, countSolve]

/-- Claim C5 amended witness: a captcha-only message in the VERIFIED state
completes without an exception, sets PENDING and solves once. -/
theorem challenge_sets_pending_witness :
    is_captcha_message mCaptchaOnly sVerified.whitelisted_channels sVerified.selfId = true ∧
    (on_message sVerified mCaptchaOnly [] 0).exn = none ∧
    countSolve (on_message sVerified mCaptchaOnly [] 0).effects = 1 :=
  ⟨by decide, by decide,
   (challenge_sets_pending_and_solves_once sVerified mCaptchaOnly [] 0 (by decide) (by decide)).2⟩

/-
  Claim C6.
-/

/-- Claim C6: for a qualifying spawn event in the VERIFIED state the handler
never raises once a best candidate exists, and a dispatch (outbound send)
occurs exactly when the selected candidate's confidence is strictly greater
than 60.0; at confidence 60.0 or below nothing is sent and no error is
raised. -/
theorem dispatch_iff_confidence_above_60 (s : BotState) (msg : Message)
    (predicted : List (String × Rat)) (pick : Nat) (n : String) (sc : Rat)
    (hv : s.verified = some true)
    (hs : is_spawn_message msg s.whitelisted_channels = true)
    (hm : maxBySnd predicted = some (n, sc)) :
    (on_message s msg predicted pick).exn = none ∧
    ((∃ c t, Effect.send c t ∈ (on_message s msg predicted pick).effects) ↔ sc > (60 : Rat)) := by
  rcases captchaPhase_effects s msg with h | h <;>
    by_cases h60 : sc > (60 : Rat) <;>
      simp [on_message, hs, hv, hm, h60, h]

/-- Claim C6 witness: at the boundary confidence exactly 60.0 the pipeline
aborts without a dispatch and without an error. -/
theorem dispatch_iff_confidence_witness :
    sVerified.verified = some true ∧
    is_spawn_message mSpawn sVerified.whitelisted_channels = true ∧
    maxBySnd [("abra", (60 : Rat))] = some ("abra", (60 : Rat)) ∧
    ((∃ c t, Effect.send c t ∈ (on_message sVerified mSpawn [("abra", (60 : Rat))] 0).effects) ↔
      (60 : Rat) > (60 : Rat)) :=
  ⟨by decide, by decide, by decide,
   (dispatch_iff_confidence_above_60 sVerified mSpawn [("abra", (60 : Rat))] 0 "abra" (60 : Rat)
     (by decide) (by decide) (by decide)).2⟩

/-
  Claim C7.
-/

/-- The fold underlying maxBySnd returns the first element, in list order, of
maximal confidence: the input splits around the result so that everything
before it has strictly smaller confidence, and nothing exceeds it. -/
theorem foldl_pickMax_firstMax (xs : List (String × Rat)) :
    ∀ a : String × Rat,
      ∃ l1 l2, a :: xs = l1 ++ xs.foldl pickMax a :: l2 ∧
        (∀ y ∈ a :: xs, y.2 ≤ (xs.foldl pickMax a).2) ∧
        (∀ y ∈ l1, y.2 < (xs.foldl pickMax a).2) := by
  induction xs with
  | nil =>
    intro a
    exact ⟨[], [], rfl, by simp, by simp⟩
  | cons y ys ih =>
    intro a
    by_cases hy : y.2 > a.2
    · have hstep : (y :: ys).foldl pickMax a = ys.foldl pickMax y := by
        simp [pickMax, hy]
      obtain ⟨l1, l2, hsplit, hle, hlt⟩ := ih y
      have hym : y.2 ≤ (ys.foldl pickMax y).2 := hle y (List.mem_cons_self y ys)
      refine ⟨a :: l1, l2, ?_, ?_, ?_⟩
      · rw [hstep, List.cons_append, ← hsplit]
      · intro z hz
        rw [hstep]
        rcases List.mem_cons.mp hz with rfl | hz2
        · exact le_of_lt (lt_of_lt_of_le hy hym)
        · exact hle z hz2
      · intro z hz
        rw [hstep]
        rcases List.mem_cons.mp hz with rfl | hz2
        · exact lt_of_lt_of_le hy hym
        · exact hlt z hz2
    · have hy2 : y.2 ≤ a.2 := le_of_not_lt hy
      have hstep : (y :: ys).foldl pickMax a = ys.foldl pickMax a := by
        simp [pickMax, hy]
      obtain ⟨l1, l2, hsplit, hle, hlt⟩ := ih a
      have ham : a.2 ≤ (ys.foldl pickMax a).2 := hle a (List.mem_cons_self a ys)
      cases l1 with
      | nil =>
        have hma : ys.foldl pickMax a = a := (List.cons.inj hsplit.symm).1
        refine ⟨[], y :: ys, ?_, ?_, by simp⟩
        · rw [hstep, hma]
          simp
        · intro z hz
          rw [hstep]
          rcases List.mem_cons.mp hz with rfl | hz2
          · exact ham
          · rcases List.mem_cons.mp hz2 with rfl | hz3
            · exact le_trans hy2 ham
            · exact hle z (List.mem_cons_of_mem a hz3)
      | cons b t =>
        rw [List.cons_append] at hsplit
        obtain ⟨hab, hys⟩ := List.cons.inj hsplit
        refine ⟨a :: y :: t, l2, ?_, ?_, ?_⟩
        · rw [hstep, List.cons_append, List.cons_append, ← hys]
        · intro z hz
          rw [hstep]
          rcases List.mem_cons.mp hz with rfl | hz2
          · exact ham
          · rcases List.mem_cons.mp hz2 with rfl | hz3
            · exact le_trans hy2 ham
            · exact hle z (List.mem_cons_of_mem a hz3)
        · have hbm : a.2 < (ys.foldl pickMax a).2 := by
            have hb := hlt b (List.mem_cons_self b t)
            rwa [← hab] at hb
          intro z hz
          rw [hstep]
          rcases List.mem_cons.mp hz with rfl | hz2
          · exact hbm
          · rcases List.mem_cons.mp hz2 with rfl | hz3
            · exact lt_of_le_of_lt hy2 hbm
            · exact hlt z (List.mem_cons_of_mem b hz3)

/-- Claim C7: for every non-empty candidate sequence, maxBySnd (the embedding
of max(predicted_pokemons, key=lambda x: x[1]) in the spawn pipeline) selects
a candidate of maximum confidence, and among candidates sharing that maximum
it selects the first in sequence order: the sequence splits around the
selected candidate with everything before it of strictly smaller confidence. -/
theorem pipeline_selects_first_max (x : String × Rat) (xs : List (String × Rat)) :
    ∃ m l1 l2, maxBySnd (x :: xs) = some m ∧
      x :: xs = l1 ++ m :: l2 ∧
      (∀ y ∈ x :: xs, y.2 ≤ m.2) ∧
      (∀ y ∈ l1, y.2 < m.2) := by
  obtain ⟨l1, l2, hsplit, hle, hlt⟩ := foldl_pickMax_firstMax xs x
  exact ⟨xs.foldl pickMax x, l1, l2, rfl, hsplit, hle, hlt⟩

/-
  Claim C8.
-/

/-- The channeladd token loop composes over concatenation: the whitelist
threads through and the feedback lines concatenate. -/
theorem channeladdTokens_append (wl : List Int) (xs ys : List String) :
    channeladdTokens wl (xs ++ ys) =
      ((channeladdTokens (channeladdTokens wl xs).1 ys).1,
       (channeladdTokens wl xs).2 ++ (channeladdTokens (channeladdTokens wl xs).1 ys).2) := by
  induction xs generalizing wl with
  | nil => simp [channeladdTokens]
  | cons t ts ih =>
    simp only [List.cons_append, channeladdTokens]
    cases pyInt t with
    | none => simp [ih]
    | some id =>
      by_cases h : id ∈ wl <;> simp [h, ih]

/-- Claim C8: the channeladd command is per-token — a non-numeric token
anywhere in the batch is reported invalid as its own line, and the tokens
after it are processed exactly as they would have been without it (each
valid id still added when not already present). -/
theorem channeladd_processes_after_invalid (wl : List Int) (l1 l2 : List String) (bad : String)
    (h : pyInt bad = none) :
    channeladdTokens wl (l1 ++ bad :: l2) =
      ((channeladdTokens (channeladdTokens wl l1).1 l2).1,
       (channeladdTokens wl l1).2 ++
         AdminLine.invalidChannel bad :: (channeladdTokens (channeladdTokens wl l1).1 l2).2) := by
  rw [channeladdTokens_append]
  simp [channeladdTokens, h]

/-- Claim C8 witness: the spec's example batch 123, abc, 456 — abc is
reported invalid and 456 is still whitelisted after it. -/
theorem channeladd_processes_after_invalid_witness :
    pyInt "abc" = none ∧
    channeladdTokens [] (["123"] ++ "abc" :: ["456"]) =
      ((channeladdTokens (channeladdTokens [] ["123"]).1 ["456"]).1,
       (channeladdTokens [] ["123"]).2 ++
         AdminLine.invalidChannel "abc" :: (channeladdTokens (channeladdTokens [] ["123"]).1 ["456"]).2) ∧
    (channeladdTokens [] ["123", "abc", "456"]).1 = [123, 456] ∧
    (channeladdTokens [] ["123", "abc", "456"]).2 =
      [AdminLine.whitelisted 123, AdminLine.invalidChannel "abc", AdminLine.whitelisted 456] :=
  ⟨by decide, channeladd_processes_after_invalid [] ["123"] ["456"] "abc" (by decide),
   by decide, by decide⟩

/-
  Claim C10.
-/

/-- Claim C10: the languageremove command removes a stored entry only on an
exact case-sensitive match — for a token whose lowercase form is a
recognized language present in the (all-lowercase) language list but which
itself differs from its lowercase form, the command reports the language as
removed while the language list passed on to the rest of the batch is
unchanged. -/
theorem languageremove_reports_removed_but_keeps_list (langs : List String) (t : String)
    (ts : List String)
    (hval : pyLower t ∈ valid_languages)
    (hmem : pyLower t ∈ langs)
    (hlow : ∀ l ∈ langs, pyLower l = l)
    (hne : pyLower t ≠ t) :
    languageremoveTokens langs (t :: ts) =
      ((languageremoveTokens langs ts).1,
       AdminLine.removedLang t :: (languageremoveTokens langs ts).2) := by
  have htni : t ∉ langs := fun hmem2 => hne (hlow t hmem2)
  have hfilter : langs.filter (fun l => l != t) = langs := by
    refine List.filter_eq_self.mpr ?_
    intro a ha
    simp only [bne_iff_ne, ne_eq, decide_eq_true_eq]
    exact fun e => htni (e ▸ ha)
  simp [languageremoveTokens, hval, hmem, hfilter]

/-- Claim C10 witness: with stored languages english and french, removing
the token French (capital F) reports removed while the list stays intact. -/
theorem languageremove_case_witness :
    pyLower "French" ∈ valid_languages ∧
    pyLower "French" ∈ ["english", "french"] ∧
    (∀ l ∈ ["english", "french"], pyLower l = l) ∧
    pyLower "French" ≠ "French" ∧
    languageremoveTokens ["english", "french"] ["French"] =
      ((languageremoveTokens ["english", "french"] []).1,
       AdminLine.removedLang "French" :: (languageremoveTokens ["english", "french"] []).2) :=
  ⟨by decide, by decide, by decide, by decide,
   languageremove_reports_removed_but_keeps_list ["english", "french"] "French" []
     (by decide) (by decide) (by decide) (by decide)⟩

/-
  Claim C2.
-/

/-- Rebinding one session's whitelist attribute leaves the other session's
two views untouched (the module-level lists are not mutated). -/
theorem view_wcRebind_other (p : ProcState) (who : Bool) (l : List Int) :
    wcView (wcRebind p who l) (!who) = wcView p (!who) ∧
    langView (wcRebind p who l) (!who) = langView p (!who) := by
  cases who <;>
    simp [wcRebind, setWcCell, wcView, wcCell, langView, langCell, Cell.view]

/-- Rebinding one session's languages attribute leaves the other session's
two views untouched. -/
theorem view_langRebind_other (p : ProcState) (who : Bool) (l : List String) :
    wcView (langRebind p who l) (!who) = wcView p (!who) ∧
    langView (langRebind p who l) (!who) = langView p (!who) := by
  cases who <;>
    simp [langRebind, setLangCell, wcView, wcCell, langView, langCell, Cell.view]

/-- Appending to a session's privately owned whitelist leaves the other
session's views untouched and the owner's list private. -/
theorem view_wcAppend_other (p : ProcState) (who : Bool) (id : Int)
    (h : (wcCell p who).aliased = false) :
    wcView (wcAppend p who id) (!who) = wcView p (!who) ∧
    langView (wcAppend p who id) (!who) = langView p (!who) ∧
    (wcCell (wcAppend p who id) who).aliased = false := by
  cases who <;>
    simp_all [wcAppend, setWcCell, wcView, wcCell, langView, langCell, Cell.view]

/-- Appending to a session's privately owned language list leaves the other
session's views untouched and the owner's list private. -/
theorem view_langAppend_other (p : ProcState) (who : Bool) (lang : String)
    (h : (langCell p who).aliased = false) :
    wcView (langAppend p who lang) (!who) = wcView p (!who) ∧
    langView (langAppend p who lang) (!who) = langView p (!who) ∧
    (langCell (langAppend p who lang) who).aliased = false := by
  cases who <;>
    simp_all [langAppend, setLangCell, wcView, wcCell, langView, langCell, Cell.view]

/-- The channelremove command run by one session never changes the other
session's views: it only rebinds the invoking session's attribute. -/
theorem procChannelremove_other_views (who : Bool) (ts : List String) :
    ∀ p : ProcState,
      wcView (procChannelremove who p ts).1 (!who) = wcView p (!who) ∧
      langView (procChannelremove who p ts).1 (!who) = langView p (!who) := by
  induction ts with
  | nil => exact fun p => ⟨rfl, rfl⟩
  | cons t ts ih =>
    intro p
    cases hp : pyInt t with
    | none =>
      simpa [procChannelremove, hp] using ih p
    | some id =>
      by_cases h : id ∈ wcView p who
      · have h1 := ih (wcRebind p who ((wcView p who).filter (fun x => x != id)))
        have h2 := view_wcRebind_other p who ((wcView p who).filter (fun x => x != id))
        simpa [procChannelremove, hp, h] using ⟨h1.1.trans h2.1, h1.2.trans h2.2⟩
      · simpa [procChannelremove, hp, h] using ih p

/-- The languageremove command run by one session never changes the other
session's views. -/
theorem procLanguageremove_other_views (who : Bool) (ts : List String) :
    ∀ p : ProcState,
      wcView (procLanguageremove who p ts).1 (!who) = wcView p (!who) ∧
      langView (procLanguageremove who p ts).1 (!who) = langView p (!who) := by
  induction ts with
  | nil => exact fun p => ⟨rfl, rfl⟩
  | cons t ts ih =>
    intro p
    by_cases hval : pyLower t ∈ valid_languages
    · by_cases h : pyLower t ∈ langView p who
      · have h1 := ih (langRebind p who ((langView p who).filter (fun l => l != t)))
        have h2 := view_langRebind_other p who ((langView p who).filter (fun l => l != t))
        simpa [procLanguageremove, hval, h] using ⟨h1.1.trans h2.1, h1.2.trans h2.2⟩
      · simpa [procLanguageremove, hval, h] using ih p
    · simpa [procLanguageremove, hval] using ih p

/-- The channeladd command run by a session whose whitelist attribute no
longer aliases the module-level list never changes the other session's
views. -/
theorem procChanneladd_other_views (who : Bool) (ts : List String) :
    ∀ p : ProcState, (wcCell p who).aliased = false →
      wcView (procChanneladd who p ts).1 (!who) = wcView p (!who) ∧
      langView (procChanneladd who p ts).1 (!who) = langView p (!who) := by
  induction ts with
  | nil => exact fun p _ => ⟨rfl, rfl⟩
  | cons t ts ih =>
    intro p hp0
    cases hp : pyInt t with
    | none =>
      simpa [procChanneladd, hp] using ih p hp0
    | some id =>
      by_cases h : id ∈ wcView p who
      · simpa [procChanneladd, hp, h] using ih p hp0
      · have h2 := view_wcAppend_other p who id hp0
        have h1 := ih (wcAppend p who id) h2.2.2
        simpa [procChanneladd, hp, h] using ⟨h1.1.trans h2.1, h1.2.trans h2.2.1⟩

/-- The languageadd command run by a session whose language attribute no
longer aliases the module-level list never changes the other session's
views. -/
theorem procLanguageadd_other_views (who : Bool) (ts : List String) :
    ∀ p : ProcState, (langCell p who).aliased = false →
      wcView (procLanguageadd who p ts).1 (!who) = wcView p (!who) ∧
      langView (procLanguageadd who p ts).1 (!who) = langView p (!who) := by
  induction ts with
  | nil => exact fun p _ => ⟨rfl, rfl⟩
  | cons t ts ih =>
    intro p hp0
    by_cases hval : pyLower t ∈ valid_languages
    · by_cases h : pyLower t ∈ langView p who
      · simpa [procLanguageadd, hval, h] using ih p hp0
      · have h2 := view_langAppend_other p who (pyLower t) hp0
        have h1 := ih (langAppend p who (pyLower t)) h2.2.2
        simpa [procLanguageadd, hval, h] using ⟨h1.1.trans h2.1, h1.2.trans h2.2.1⟩
    · simpa [procLanguageadd, hval] using ih p hp0

/-- Claim C2 counterexample: two fresh sessions alias the same module-level
whitelist object, so session A whitelisting channel 123 changes session B's
whitelist from empty to [123] even though B ran no command. -/
theorem session_b_whitelist_mutated_by_session_a :
    wcView initProc false = [] ∧
    (procChanneladd true initProc ["123"]).2 = [AdminLine.whitelisted 123] ∧
    wcView (procChanneladd true initProc ["123"]).1 false = [123] := by
  decide

/-- Claim C2 (amended): isolation holds except through the shared
module-level lists the sessions initially alias — the remove commands never
change the other session's whitelist or language list (they only rebind the
invoking session's attribute to a fresh list), and the add commands leave
the other session unchanged whenever the invoking session's corresponding
attribute has been rebound to a private list (it no longer aliases the
module-level one). -/
theorem session_isolation_amended :
    (∀ (who : Bool) (ts : List String) (p : ProcState),
        wcView (procChannelremove who p ts).1 (!who) = wcView p (!who) ∧
        langView (procChannelremove who p ts).1 (!who) = langView p (!who)) ∧
    (∀ (who : Bool) (ts : List String) (p : ProcState),
        wcView (procLanguageremove who p ts).1 (!who) = wcView p (!who) ∧
        langView (procLanguageremove who p ts).1 (!who) = langView p (!who)) ∧
    (∀ (who : Bool) (ts : List String) (p : ProcState),
        (wcCell p who).aliased = false →
        wcView (procChanneladd who p ts).1 (!who) = wcView p (!who) ∧
        langView (procChanneladd who p ts).1 (!who) = langView p (!who)) ∧
    (∀ (who : Bool) (ts : List String) (p : ProcState),
        (langCell p who).aliased = false →
        wcView (procLanguageadd who p ts).1 (!who) = wcView p (!who) ∧
        langView (procLanguageadd who p ts).1 (!who) = langView p (!who)) :=
  ⟨fun who ts p => procChannelremove_other_views who ts p,
   fun who ts p => procLanguageremove_other_views who ts p,
   fun who ts p h => procChanneladd_other_views who ts p h,
   fun who ts p h => procLanguageadd_other_views who ts p h⟩

/-- Claim C2 amended witness: once session A owns its whitelist (here after
a rebind), its channeladd no longer affects session B's whitelist. -/
theorem session_isolation_amended_witness :
    (wcCell (wcRebind initProc true []) true).aliased = false ∧
    wcView (procChanneladd true (wcRebind initProc true []) ["123"]).1 false =
      wcView (wcRebind initProc true []) false :=
  ⟨by decide,
   (session_isolation_amended.2.2.1 true ["123"] (wcRebind initProc true []) (by decide)).1⟩

end Pokefier
